import Mathlib

/-!
Verification of the MoneyMentor session cache/store subsystem
(src/backend/app/utils/session.py and the clear-history route in
src/backend/app/api/routes/chat.py) against its specification.

The embedding is a state-passing translation of the python source.  The
process state is a World: the in-memory session cache (a python dict keyed
by session id), the durable store, and a tick counter for calls to
datetime.utcnow().  Timestamps are modelled by an ambient clock function
from ticks to readings.  Fallible operations return an Except paired with
the post-state, since a python exception does not roll global state back.

The durable store itself (the supabase client behind app.core.database,
which is not among the sources) is modelled from the spec: a keyed record
store with load, insert, update and delete by session id, whose calls may
fail; a Boolean failure switch makes every durable call raise, which is the
failure injection the spec uses for its write-behind properties.
-/

namespace MoneyMentor

/-- Chat messages are opaque payloads to the session layer; modelled as strings. -/
abbrev Message := String

/-- Quiz records are opaque payloads to the session layer; modelled as strings. -/
abbrev QuizRecord := String

/-- Progress maps are string-keyed with opaque values, modelled as integers;
represented as insertion-ordered association lists, the way a python dict
orders its keys. -/
abbrev Progress := List (String × Int)

/-- Lookup in a string-keyed python dict. -/
def findVal {α : Type} (m : List (String × α)) (k : String) : Option α :=
  match m with
  | [] => none
  | kv :: tl => if kv.1 = k then some kv.2 else findVal tl k

/-- Membership test in a string-keyed python dict. -/
def hasKey {α : Type} (m : List (String × α)) (k : String) : Bool :=
  (findVal m k).isSome

/-- Insert-or-replace, python d[k] = v: an existing key keeps its position
and takes the new value, a new key is appended. -/
def dictSet {α : Type} (m : List (String × α)) (k : String) (v : α) :
    List (String × α) :=
  match m with
  | [] => [(k, v)]
  | kv :: tl => if kv.1 = k then (k, v) :: tl else kv :: dictSet tl k v

/-- Removal, python d.pop(k, None). -/
def dictPop {α : Type} (m : List (String × α)) (k : String) :
    List (String × α) :=
  match m with
  | [] => []
  | kv :: tl => if kv.1 = k then dictPop tl k else kv :: dictPop tl k

/-- Python d.update(u): existing keys keep their position and take the value
from u, keys new to d are appended in the order u lists them. -/
def dictUpdate {α : Type} (m u : List (String × α)) : List (String × α) :=
  m.map (fun kv =>
    match findVal u kv.1 with
    | some v => (kv.1, v)
    | none => kv)
  ++ u.filter (fun kv => !hasKey m kv.1)

/-- Session record in the shape built by session.py (the session_data dicts). -/
structure Session where
  session_id : String
  user_id : String
  chat_history : List Message
  quiz_history : List QuizRecord
  progress : Progress
  created_at : Nat
  updated_at : Nat
deriving Repr, DecidableEq

/-- Modelled from the spec: a row of the user_sessions table in the durable
store (the supabase client and app.core.database are not among the sources;
the spec describes the DurableStore collaborator as a keyed record store
whose calls may fail). -/
structure DBRow where
  id : String
  user_id : String
  chat_history : List Message
  quiz_history : List QuizRecord
  progress : Progress
  created_at : Nat
  updated_at : Nat
deriving Repr, DecidableEq

/-- Modelled from the spec: the durable store.  Rows are keyed by their
server-generated id; nextId feeds id generation on insert; when fail is set
every durable call raises, which is the failure injection the spec uses. -/
structure DB where
  rows : List (String × DBRow)
  nextId : Nat
  fail : Bool
deriving Repr, DecidableEq

/-- Process state: the in-memory session cache (module-level _session_cache),
the durable store, and the count of datetime.utcnow() calls made so far. -/
structure World where
  cache : List (String × Session)
  db : DB
  tick : Nat
deriving Repr, DecidableEq

/-- Clock: the k-th call to datetime.utcnow() returns reading c k. -/
abbrev Clock := Nat → Nat

/-- Reading the clock consumes one tick. -/
def utcnow (c : Clock) (w : World) : Nat × World :=
  (c w.tick, { w with tick := w.tick + 1 })

/-- Errors raised by the session layer: a durable-store failure propagated
as an exception, the not-found ValueError, and the explicit failure branch
of create_session when the insert returns no data. -/
inductive Err where
  | storeError
  | notFound (id : String)
  | createFailed
deriving Repr, DecidableEq

/-- Modelled from the spec: durable insert.  The store generates the row id
and echoes the inserted row back; none models a raised store exception. -/
def dbInsert (d : DB) (r : DBRow) : Option (DBRow × DB) :=
  if d.fail then none
  else
    let row := { r with id := toString d.nextId }
    some (row, { d with rows := d.rows ++ [(row.id, row)], nextId := d.nextId + 1 })

/-- Modelled from the spec: durable load by id.  The outer none models a
raised store exception; the inner option is presence of the row. -/
def dbSelect (d : DB) (id : String) : Option (Option DBRow) :=
  if d.fail then none else some (findVal d.rows id)

/-- Modelled from the spec: durable update by id; a no-op when no row
matches, none when the store raises. -/
def dbUpdateRow (d : DB) (id : String) (f : DBRow → DBRow) : Option DB :=
  if d.fail then none
  else some { d with rows := d.rows.map (fun kv => if kv.1 = id then (kv.1, f kv.2) else kv) }

/-- Modelled from the spec: durable delete by id; reports whether a row was
deleted, none when the store raises. -/
def dbDelete (d : DB) (id : String) : Option (Bool × DB) :=
  if d.fail then none
  else some (hasKey d.rows id, { d with rows := dictPop d.rows id })

/-- Conversion of a database row to the session format (session.py lines
79 to 87 and 116 to 124). -/
def rowToSession (r : DBRow) : Session :=
  { session_id := r.id
    user_id := r.user_id
    chat_history := r.chat_history
    quiz_history := r.quiz_history
    progress := r.progress
    created_at := r.created_at
    updated_at := r.updated_at }

/-- Embedding of create_session (session.py lines 18 to 61).  The
session_id argument is accepted but never read by the source: the id of the
created session is always the one generated by the durable insert.  The
insert is synchronous, so a store failure propagates to the caller.  Two
separate utcnow readings feed created_at and updated_at.  The branch that
raises when the insert echoes no data is unreachable in this model because
the spec-modelled store always echoes the inserted row on success. -/
def create_session (c : Clock) (session_id : Option String) (user_id : String)
    (w : World) : Except Err Session × World :=
  let (t1, w1) := utcnow c w
  let (t2, w2) := utcnow c w1
  let pending : DBRow :=
    { id := ""
      user_id := user_id
      chat_history := []
      quiz_history := []
      progress := []
      created_at := t1
      updated_at := t2 }
  match dbInsert w2.db pending with
  | none => (Except.error Err.storeError, w2)
  | some (row, db1) =>
    let session_data : Session :=
      { session_id := row.id
        user_id := user_id
        chat_history := []
        quiz_history := []
        progress := []
        created_at := row.created_at
        updated_at := row.updated_at }
    (Except.ok session_data,
      { w2 with db := db1, cache := dictSet w2.cache row.id session_data })

/-- Embedding of get_session (session.py lines 63 to 98): cache first; on a
miss, a durable select; a successful load is converted, cached and
returned; a raised store exception is caught and becomes a None result,
exactly like an absent row. -/
def get_session (session_id : String) (w : World) : Option Session × World :=
  match findVal w.cache session_id with
  | some s => (some s, w)
  | none =>
    match dbSelect w.db session_id with
    | none => (none, w)
    | some none => (none, w)
    | some (some row) =>
      let s := rowToSession row
      (some s, { w with cache := dictSet w.cache session_id s })

/-- Update payload handed to update_session: the optional keys the callers
pass (chat_history, quiz_history, progress).  The updated_at key is always
set by update_session itself before the dict is applied. -/
structure UpdateData where
  chat_history : Option (List Message) := none
  quiz_history : Option (List QuizRecord) := none
  progress : Option Progress := none
deriving Repr, DecidableEq

/-- Python dict .update of a session record with the payload keys plus the
updated_at stamp. -/
def applyUpdate (s : Session) (d : UpdateData) (t : Nat) : Session :=
  { s with
    chat_history := d.chat_history.getD s.chat_history
    quiz_history := d.quiz_history.getD s.quiz_history
    progress := d.progress.getD s.progress
    updated_at := t }

/-- Embedding of _update_session_async (session.py lines 140 to 158): the
best-effort durable write behind the cache.  It maps the payload keys to
row columns, stamps a fresh updated_at, and swallows every failure, so it
never raises and never touches the cache. -/
def update_session_async (c : Clock) (session_id : String) (data : UpdateData)
    (w : World) : World :=
  let (t, w1) := utcnow c w
  match dbUpdateRow w1.db session_id (fun r =>
      { r with
        chat_history := data.chat_history.getD r.chat_history
        quiz_history := data.quiz_history.getD r.quiz_history
        progress := data.progress.getD r.progress
        updated_at := t }) with
  | none => w1
  | some db1 => { w1 with db := db1 }

/-- Embedding of update_session (session.py lines 100 to 138): stamp
updated_at, apply the payload to the cached record (loading and converting
the row from the durable store on a cache miss, raising ValueError when the
row is absent and re-raising a store exception met on the miss path), then
fire the best-effort durable write. -/
def update_session (c : Clock) (session_id : String) (data : UpdateData)
    (w : World) : Except Err Session × World :=
  let (t, w1) := utcnow c w
  match findVal w1.cache session_id with
  | some s =>
    let s1 := applyUpdate s data t
    let w2 := { w1 with cache := dictSet w1.cache session_id s1 }
    (Except.ok s1, update_session_async c session_id data w2)
  | none =>
    match dbSelect w1.db session_id with
    | none => (Except.error Err.storeError, w1)
    | some none => (Except.error (Err.notFound session_id), w1)
    | some (some row) =>
      let s1 := applyUpdate (rowToSession row) data t
      let w2 := { w1 with cache := dictSet w1.cache session_id s1 }
      (Except.ok s1, update_session_async c session_id data w2)

/-- Embedding of delete_session (session.py lines 176 to 188): the cache
entry is evicted first; then the durable delete runs, and a store failure
is re-raised by the except block, after the eviction, which is never rolled
back. -/
def delete_session (session_id : String) (w : World) : Except Err Bool × World :=
  let w1 := { w with cache := dictPop w.cache session_id }
  match dbDelete w1.db session_id with
  | none => (Except.error Err.storeError, w1)
  | some (existed, db1) => (Except.ok existed, { w1 with db := db1 })

/-- Embedding of add_chat_message (session.py lines 190 to 220): when the
session is cached, append under the cache lock, stamp updated_at, and fire
the best-effort durable write; otherwise fall back to get_session and
update_session, raising ValueError when the session exists nowhere. -/
def add_chat_message (c : Clock) (session_id : String) (message : Message)
    (w : World) : Except Err Unit × World :=
  match findVal w.cache session_id with
  | some s =>
    let (t, w1) := utcnow c w
    let chat1 := s.chat_history ++ [message]
    let s1 := { s with chat_history := chat1, updated_at := t }
    let w2 := { w1 with cache := dictSet w1.cache session_id s1 }
    (Except.ok (),
      update_session_async c session_id { chat_history := some chat1 } w2)
  | none =>
    match get_session session_id w with
    | (none, w1) => (Except.error (Err.notFound session_id), w1)
    | (some s, w1) =>
      let chat1 := s.chat_history ++ [message]
      match update_session c session_id { chat_history := some chat1 } w1 with
      | (Except.ok _, w2) => (Except.ok (), w2)
      | (Except.error e, w2) => (Except.error e, w2)

/-- Embedding of add_quiz_response (session.py lines 222 to 252): same shape
as add_chat_message, on quiz_history. -/
def add_quiz_response (c : Clock) (session_id : String) (quiz_data : QuizRecord)
    (w : World) : Except Err Unit × World :=
  match findVal w.cache session_id with
  | some s =>
    let (t, w1) := utcnow c w
    let quiz1 := s.quiz_history ++ [quiz_data]
    let s1 := { s with quiz_history := quiz1, updated_at := t }
    let w2 := { w1 with cache := dictSet w1.cache session_id s1 }
    (Except.ok (),
      update_session_async c session_id { quiz_history := some quiz1 } w2)
  | none =>
    match get_session session_id w with
    | (none, w1) => (Except.error (Err.notFound session_id), w1)
    | (some s, w1) =>
      let quiz1 := s.quiz_history ++ [quiz_data]
      match update_session c session_id { quiz_history := some quiz1 } w1 with
      | (Except.ok _, w2) => (Except.ok (), w2)
      | (Except.error e, w2) => (Except.error e, w2)

/-- Embedding of update_progress (session.py lines 254 to 284): when the
session is cached, merge the partial into the progress map with python
dict update, stamp updated_at, fire the best-effort durable write;
otherwise fall back to get_session and update_session, raising ValueError
when the session exists nowhere. -/
def update_progress (c : Clock) (session_id : String) (progress_data : Progress)
    (w : World) : Except Err Unit × World :=
  match findVal w.cache session_id with
  | some s =>
    let (t, w1) := utcnow c w
    let prog1 := dictUpdate s.progress progress_data
    let s1 := { s with progress := prog1, updated_at := t }
    let w2 := { w1 with cache := dictSet w1.cache session_id s1 }
    (Except.ok (),
      update_session_async c session_id { progress := some prog1 } w2)
  | none =>
    match get_session session_id w with
    | (none, w1) => (Except.error (Err.notFound session_id), w1)
    | (some s, w1) =>
      let prog1 := dictUpdate s.progress progress_data
      match update_session c session_id { progress := some prog1 } w1 with
      | (Except.ok _, w2) => (Except.ok (), w2)
      | (Except.error e, w2) => (Except.error e, w2)

/-- Embedding of the clear_chat_history route handler
(src/backend/app/api/routes/chat.py lines 212 to 233): 404 when the session
is unknown, otherwise update_session with both histories emptied. -/
def clear_chat_history (c : Clock) (session_id : String) (w : World) :
    Except Err Unit × World :=
  match get_session session_id w with
  | (none, w1) => (Except.error (Err.notFound session_id), w1)
  | (some _, w1) =>
    match update_session c session_id
        { chat_history := some [], quiz_history := some [] } w1 with
    | (Except.ok _, w2) => (Except.ok (), w2)
    | (Except.error e, w2) => (Except.error e, w2)

/-! ## Dictionary lemmas -/

theorem findVal_dictSet_self {α : Type} (m : List (String × α)) (k : String)
    (v : α) : findVal (dictSet m k v) k = some v := by
  induction m with
  | nil => simp [dictSet, findVal]
  | cons kv tl ih =>
    by_cases h : kv.1 = k
    · simp [dictSet, h, findVal]
    · simp [dictSet, h, findVal, ih]

theorem findVal_dictPop_self {α : Type} (m : List (String × α)) (k : String) :
    findVal (dictPop m k) k = none := by
  induction m with
  | nil => simp [dictPop, findVal]
  | cons kv tl ih =>
    by_cases h : kv.1 = k
    · simp [dictPop, h, ih]
    · simp [dictPop, h, findVal, ih]

/-! ## Basic facts about the session operations -/

theorem cache_update_session_async (c : Clock) (id : String) (d : UpdateData)
    (w : World) : (update_session_async c id d w).cache = w.cache := by
  simp only [update_session_async, utcnow]
  split <;> rfl

theorem get_session_some_cached (id : String) (w w1 : World) (s : Session)
    (h : get_session id w = (some s, w1)) : findVal w1.cache id = some s := by
  unfold get_session at h
  split at h
  · next s0 hc =>
    rw [Prod.mk.injEq] at h
    obtain ⟨hs, hw⟩ := h
    injection hs with hs
    subst hs
    subst hw
    exact hc
  · next hc =>
    split at h
    · simp at h
    · simp at h
    · next row hd =>
      rw [Prod.mk.injEq] at h
      obtain ⟨hs, hw⟩ := h
      injection hs with hs
      subst hs
      subst hw
      exact findVal_dictSet_self _ _ _

/-! ## C10 -/

/-- C10: delete_session evicts the id from the in-memory cache before the
durable delete, and the eviction is never rolled back: after any
delete_session call, raising or not, the id is absent from the cache. -/
theorem C10_thm (id : String) (w : World) :
    findVal (delete_session id w).2.cache id = none := by
  simp only [delete_session]
  split <;> simp [findVal_dictPop_self]

/-! ## C7 -/

/-- Sample session record used by concrete scenarios. -/
def sampleSession (id u : String) : Session :=
  { session_id := id
    user_id := u
    chat_history := []
    quiz_history := []
    progress := []
    created_at := 0
    updated_at := 0 }

/-- Sample durable-store row used by concrete scenarios. -/
def sampleRow (id u : String) : DBRow :=
  { id := id
    user_id := u
    chat_history := []
    quiz_history := []
    progress := []
    created_at := 0
    updated_at := 0 }

/-- World with session 7 in both cache and store, and a failing store. -/
def c7_world : World :=
  { cache := [("7", sampleSession "7" "u")]
    db := { rows := [("7", sampleRow "7" "u")], nextId := 8, fail := true }
    tick := 0 }

/-- C7 counterexample: with the durable store failing, DeleteSession raises
a store error to the caller instead of returning Ok. -/
theorem C7_counterexample :
    (delete_session "7" c7_world).1 = Except.error Err.storeError := by
  rfl

/-- C7 corrected: delete_session evicts the cache entry and then lets a
durable-store failure propagate to the caller as an exception (the except
block logs and re-raises); the failure is not swallowed, but the eviction
survives it. -/
theorem C7_amended_thm (id : String) (w : World)
    (hfail : w.db.fail = true) :
    (delete_session id w).1 = Except.error Err.storeError ∧
    findVal (delete_session id w).2.cache id = none := by
  unfold delete_session dbDelete
  simp [hfail, findVal_dictPop_self]

theorem C7_witness :
    (delete_session "7" c7_world).1 = Except.error Err.storeError ∧
    findVal (delete_session "7" c7_world).2.cache "7" = none :=
  C7_amended_thm "7" c7_world rfl

/-! ## C4 -/

/-- C4: on a cache miss, get_session returns None with the world unchanged
both when the durable load raises and when the row is absent; when the load
succeeds it caches the converted row and returns it. -/
theorem C4_thm (id : String) (w : World)
    (hmiss : findVal w.cache id = none) :
    (w.db.fail = true → get_session id w = (none, w)) ∧
    (w.db.fail = false → findVal w.db.rows id = none →
      get_session id w = (none, w)) ∧
    (∀ row, w.db.fail = false → findVal w.db.rows id = some row →
      get_session id w =
        (some (rowToSession row),
          { w with cache := dictSet w.cache id (rowToSession row) })) := by
  refine ⟨?_, ?_, ?_⟩
  · intro hf
    simp [get_session, dbSelect, hmiss, hf]
  · intro hf hr
    simp [get_session, dbSelect, hmiss, hf, hr]
  · intro row hf hr
    simp [get_session, dbSelect, hmiss, hf, hr]

/-- World with an empty cache and a failing store. -/
def c4_world : World :=
  { cache := [], db := { rows := [], nextId := 0, fail := true }, tick := 0 }

theorem C4_witness : get_session "x" c4_world = (none, c4_world) :=
  (C4_thm "x" c4_world rfl).1 rfl

/-! ## C5 -/

/-- C5: AppendChatMessage and AppendQuizRecord on an id present in neither
the cache nor the durable store raise the not-found error and leave the
whole world unchanged: no session is fabricated anywhere. -/
theorem C5_thm (c : Clock) (id : String) (m : Message) (q : QuizRecord)
    (w : World) (hmiss : findVal w.cache id = none)
    (hdb : findVal w.db.rows id = none) :
    (add_chat_message c id m w).1 = Except.error (Err.notFound id) ∧
    (add_chat_message c id m w).2 = w ∧
    (add_quiz_response c id q w).1 = Except.error (Err.notFound id) ∧
    (add_quiz_response c id q w).2 = w := by
  have hget : get_session id w = (none, w) := by
    unfold get_session dbSelect
    rw [hmiss]
    cases hf : w.db.fail <;> simp [hdb]
  refine ⟨?_, ?_, ?_, ?_⟩ <;>
    simp [add_chat_message, add_quiz_response, hmiss, hget]

/-- World with an empty cache and an empty, healthy store. -/
def c5_world : World :=
  { cache := [], db := { rows := [], nextId := 0, fail := false }, tick := 0 }

theorem C5_witness :
    (add_chat_message (fun n => n) "never-created" "m" c5_world).1 =
      Except.error (Err.notFound "never-created") ∧
    (add_chat_message (fun n => n) "never-created" "m" c5_world).2 = c5_world ∧
    (add_quiz_response (fun n => n) "never-created" "q" c5_world).1 =
      Except.error (Err.notFound "never-created") ∧
    (add_quiz_response (fun n => n) "never-created" "q" c5_world).2 = c5_world :=
  C5_thm (fun n => n) "never-created" "m" "q" c5_world rfl rfl

/-! ## Lookup characterization of python dict update -/

/-- First-some choice on options: the value from the first lookup when
present, otherwise the second. -/
def orElseVal {α : Type} (a b : Option α) : Option α :=
  match a with
  | some v => some v
  | none => b

theorem findVal_append {α : Type} (a b : List (String × α)) (k : String) :
    findVal (a ++ b) k = orElseVal (findVal a k) (findVal b k) := by
  induction a with
  | nil => simp [findVal, orElseVal]
  | cons kv tl ih =>
    by_cases h : kv.1 = k
    · simp [findVal, h, orElseVal]
    · simp [findVal, h, ih]

theorem findVal_overwrite {α : Type} (m u : List (String × α)) (k : String) :
    findVal (m.map (fun kv =>
      match findVal u kv.1 with
      | some v => (kv.1, v)
      | none => kv)) k =
      (findVal m k).map (fun v => (findVal u k).getD v) := by
  induction m with
  | nil => simp [findVal]
  | cons kv tl ih =>
    by_cases h : kv.1 = k
    · subst h
      cases hu : findVal u kv.1 <;> simp [findVal, hu]
    · cases hu : findVal u kv.1 <;> simp [findVal, h, hu, ih]

theorem findVal_filter_not_hasKey {α : Type} (m u : List (String × α))
    (k : String) (h : hasKey m k = false) :
    findVal (u.filter (fun kv => !hasKey m kv.1)) k = findVal u k := by
  induction u with
  | nil => simp [findVal]
  | cons kv tl ih =>
    by_cases hk : kv.1 = k
    · subst hk
      simp [List.filter_cons, h, findVal, ih]
    · cases hmk : hasKey m kv.1 <;>
        simp [List.filter_cons, hmk, findVal, hk, ih]

theorem findVal_dictUpdate {α : Type} (m u : List (String × α)) (k : String) :
    findVal (dictUpdate m u) k = orElseVal (findVal u k) (findVal m k) := by
  unfold dictUpdate
  rw [findVal_append, findVal_overwrite]
  cases hm : findVal m k with
  | some v => cases hu : findVal u k <;> simp [hm, hu, orElseVal]
  | none =>
    have hkey : hasKey m k = false := by simp [hasKey, hm]
    rw [findVal_filter_not_hasKey m u k hkey]
    cases hu : findVal u k <;> simp [hm, hu, orElseVal]

/-! ## Cached-path characterizations -/

theorem add_chat_message_cached (c : Clock) (id : String) (m : Message)
    (w : World) (s : Session) (h : findVal w.cache id = some s) :
    (add_chat_message c id m w).1 = Except.ok () ∧
    findVal (add_chat_message c id m w).2.cache id =
      some { s with chat_history := s.chat_history ++ [m],
                    updated_at := c w.tick } := by
  simp only [add_chat_message, h, utcnow]
  refine ⟨trivial, ?_⟩
  rw [cache_update_session_async]
  exact findVal_dictSet_self _ _ _

theorem update_progress_cached (c : Clock) (id : String) (p : Progress)
    (w : World) (s : Session) (h : findVal w.cache id = some s) :
    (update_progress c id p w).1 = Except.ok () ∧
    findVal (update_progress c id p w).2.cache id =
      some { s with progress := dictUpdate s.progress p,
                    updated_at := c w.tick } := by
  simp only [update_progress, h, utcnow]
  refine ⟨trivial, ?_⟩
  rw [cache_update_session_async]
  exact findVal_dictSet_self _ _ _

/-! ## C1 -/

/-- World with session 7 in the cache and a failing durable store. -/
def c1_world : World :=
  { cache := [("7", sampleSession "7" "u")]
    db := { rows := [], nextId := 8, fail := true }
    tick := 0 }

/-- C1 counterexample: with the durable store failing on every call,
CreateSession does not return successfully: its durable insert is
synchronous and the store exception propagates to the caller. -/
theorem C1_counterexample :
    (create_session (fun n => n) (some "7") "u" c1_world).1 =
      Except.error Err.storeError := by
  rfl

/-- C1 corrected: with the durable store failing on every call,
AppendChatMessage and MergeProgress on a cached session still return
successfully and the cache reflects the post-mutation state, since their
durable writes are fire-and-forget and swallow failures; but CreateSession
raises: its durable insert is synchronous, so store unavailability fails it. -/
theorem C1_amended_thm (c : Clock) (w : World) (id u : String)
    (sid : Option String) (m : Message) (p : Progress) (s : Session)
    (hfail : w.db.fail = true) (hcache : findVal w.cache id = some s) :
    (create_session c sid u w).1 = Except.error Err.storeError ∧
    ((add_chat_message c id m w).1 = Except.ok () ∧
      findVal (add_chat_message c id m w).2.cache id =
        some { s with chat_history := s.chat_history ++ [m],
                      updated_at := c w.tick }) ∧
    ((update_progress c id p w).1 = Except.ok () ∧
      findVal (update_progress c id p w).2.cache id =
        some { s with progress := dictUpdate s.progress p,
                      updated_at := c w.tick }) := by
  refine ⟨?_, add_chat_message_cached c id m w s hcache,
    update_progress_cached c id p w s hcache⟩
  simp [create_session, utcnow, dbInsert, hfail]

theorem C1_witness :
    (create_session (fun n => n) none "u" c1_world).1 =
      Except.error Err.storeError ∧
    (add_chat_message (fun n => n) "7" "hello" c1_world).1 = Except.ok () ∧
    (update_progress (fun n => n) "7" [("a", 1)] c1_world).1 = Except.ok () := by
  obtain ⟨h1, h2, h3⟩ := C1_amended_thm (fun n => n) c1_world "7" "u" none
    "hello" [("a", 1)] (sampleSession "7" "u") rfl rfl
  exact ⟨h1, h2.1, h3.1⟩

/-! ## C3 -/

/-- World with an empty cache and a healthy store whose next generated id
is 7. -/
def c3_world : World :=
  { cache := [], db := { rows := [], nextId := 7, fail := false }, tick := 0 }

/-- C3 counterexample: a caller-supplied id is not honored: supplying the id
"fresh-id" yields a session whose id is the store-generated "7". -/
theorem C3_counterexample :
    ((create_session (fun n => n) (some "fresh-id") "u" c3_world).1.map
        Session.session_id) = Except.ok "7" ∧ "7" ≠ "fresh-id" := by
  refine ⟨rfl, by decide⟩

/-- C3 corrected: create_session ignores its session_id argument entirely:
the call behaves identically whatever id is supplied, and when the durable
insert succeeds the returned session carries the store-generated id. -/
theorem C3_amended_thm (c : Clock) (sid1 sid2 : Option String)
    (u : String) (w : World) :
    create_session c sid1 u w = create_session c sid2 u w ∧
    (w.db.fail = false →
      (create_session c sid1 u w).1.map Session.session_id =
        Except.ok (toString w.db.nextId)) := by
  refine ⟨rfl, ?_⟩
  intro hf
  simp [create_session, utcnow, dbInsert, hf, Except.map]

theorem C3_witness :
    create_session (fun n => n) (some "fresh-id") "u" c3_world =
      create_session (fun n => n) none "u" c3_world ∧
    ((create_session (fun n => n) (some "fresh-id") "u" c3_world).1.map
        Session.session_id) = Except.ok (toString c3_world.db.nextId) :=
  ⟨(C3_amended_thm (fun n => n) (some "fresh-id") none "u" c3_world).1,
   (C3_amended_thm (fun n => n) (some "fresh-id") none "u" c3_world).2 rfl⟩

/-! ## C6 -/

/-- World with session s cached (empty progress) and a failing store. -/
def c6_world : World :=
  { cache := [("s", sampleSession "s" "u")]
    db := { rows := [], nextId := 0, fail := true }
    tick := 0 }

/-- C6: MergeProgress on a cached session is a shallow union-overwrite and
idempotent: the merged map takes the value from the partial on the keys of
the partial and keeps the prior value on every other key; a second
application of the same partial leaves the map extensionally unchanged; and
concretely, merging a 1 and then b 2 into an empty map yields exactly the
two-entry map a 1, b 2. -/
theorem C6_thm (c : Clock) (id : String) (p : Progress) (w : World)
    (s : Session) (hcache : findVal w.cache id = some s) :
    ((update_progress c id p w).1 = Except.ok () ∧
     ∃ s1, findVal (update_progress c id p w).2.cache id = some s1 ∧
       (∀ k, findVal s1.progress k =
          orElseVal (findVal p k) (findVal s.progress k)) ∧
       ∃ s2, findVal (update_progress c id p
              (update_progress c id p w).2).2.cache id = some s2 ∧
         ∀ k, findVal s2.progress k = findVal s1.progress k) ∧
    (findVal ((update_progress (fun n => n) "s" [("b", 2)]
        (update_progress (fun n => n) "s" [("a", 1)] c6_world).2).2).cache
        "s").map Session.progress = some [("a", 1), ("b", 2)] := by
  constructor
  · obtain ⟨h1, h2⟩ := update_progress_cached c id p w s hcache
    refine ⟨h1, _, h2, fun k => ?_, ?_⟩
    · show findVal (dictUpdate s.progress p) k = _
      exact findVal_dictUpdate _ _ _
    · obtain ⟨h3, h4⟩ :=
        update_progress_cached c id p (update_progress c id p w).2 _ h2
      refine ⟨_, h4, fun k => ?_⟩
      show findVal (dictUpdate (dictUpdate s.progress p) p) k =
        findVal (dictUpdate s.progress p) k
      simp only [findVal_dictUpdate]
      cases hp : findVal p k <;> simp [hp, orElseVal]
  · rfl

theorem C6_witness :
    (update_progress (fun n => n) "s" [("a", 1)] c6_world).1 = Except.ok () :=
  ((C6_thm (fun n => n) "s" [("a", 1)] c6_world
    (sampleSession "s" "u") rfl).1).1

/-! ## C8 -/

/-- C8: clear_chat_history on an existing session (one that get_session
returns) succeeds and resets both histories to the empty sequence while
preserving the session id, the user id and the progress map exactly. -/
theorem C8_thm (c : Clock) (id : String) (w w1 : World) (s : Session)
    (hget : get_session id w = (some s, w1)) :
    (clear_chat_history c id w).1 = Except.ok () ∧
    ∃ s1, findVal (clear_chat_history c id w).2.cache id = some s1 ∧
      s1.session_id = s.session_id ∧ s1.user_id = s.user_id ∧
      s1.progress = s.progress ∧
      s1.chat_history = [] ∧ s1.quiz_history = [] := by
  have hcached : findVal w1.cache id = some s :=
    get_session_some_cached id w w1 s hget
  simp only [clear_chat_history, hget, update_session, utcnow, hcached]
  refine ⟨trivial,
    applyUpdate s { chat_history := some [], quiz_history := some [] }
      (c w1.tick), ?_, rfl, rfl, rfl, rfl, rfl⟩
  rw [cache_update_session_async]
  exact findVal_dictSet_self _ _ _

theorem C8_witness :
    (clear_chat_history (fun n => n) "7" c7_world).1 = Except.ok () :=
  (C8_thm (fun n => n) "7" c7_world c7_world (sampleSession "7" "u") rfl).1

/-! ## C9 -/

/-- World with an empty cache, a healthy empty store with next id 7, and
tick 0. -/
def c9_world : World :=
  { cache := [], db := { rows := [], nextId := 7, fail := false }, tick := 0 }

/-- C9 counterexample: CreateSession with the fresh caller-supplied id
"fresh" ignores that id, so an immediate GetSession on "fresh" returns
NotFound; moreover the created record reads the clock twice, here yielding
created_at 0 but updated_at 1. -/
theorem C9_counterexample :
    (get_session "fresh"
        (create_session (fun n => n) (some "fresh") "u" c9_world).2).1 =
      none ∧
    (create_session (fun n => n) (some "fresh") "u" c9_world).1.map
        (fun s => (s.created_at, s.updated_at)) = Except.ok (0, 1) := by
  exact ⟨rfl, rfl⟩

/-- C9 corrected: after a successful CreateSession, GetSession on the
returned session id (the caller-supplied id being ignored) immediately
returns the created record, which has empty histories, the given user id,
an empty progress map, and created_at ≤ updated_at under a monotone clock;
the two stamps are two separate clock readings, so equality is not
guaranteed. -/
theorem C9_amended_thm (c : Clock) (sid : Option String) (u : String)
    (w w1 : World) (s : Session) (hmono : Monotone c)
    (hcreate : create_session c sid u w = (Except.ok s, w1)) :
    get_session s.session_id w1 = (some s, w1) ∧
    s.chat_history = [] ∧ s.quiz_history = [] ∧ s.user_id = u ∧
    s.progress = [] ∧ s.created_at ≤ s.updated_at := by
  simp only [create_session, utcnow, dbInsert] at hcreate
  by_cases hf : w.db.fail
  · rw [if_pos hf] at hcreate
    simp at hcreate
  · rw [if_neg hf] at hcreate
    simp only [Prod.mk.injEq, Except.ok.injEq] at hcreate
    obtain ⟨hs, hw⟩ := hcreate
    subst hs
    subst hw
    refine ⟨?_, rfl, rfl, rfl, rfl, ?_⟩
    · simp [get_session, findVal_dictSet_self]
    · show c w.tick ≤ c (w.tick + 1)
      exact hmono (Nat.le_succ _)

/-- Session record produced by create_session on c9_world. -/
def c9_session : Session :=
  { session_id := "7", user_id := "u", chat_history := [], quiz_history := []
    progress := [], created_at := 0, updated_at := 1 }

/-- Store row produced by create_session on c9_world. -/
def c9_row : DBRow :=
  { id := "7", user_id := "u", chat_history := [], quiz_history := []
    progress := [], created_at := 0, updated_at := 1 }

/-- World state after create_session on c9_world. -/
def c9_world1 : World :=
  { cache := [("7", c9_session)]
    db := { rows := [("7", c9_row)], nextId := 8, fail := false }
    tick := 2 }

theorem C9_witness :
    get_session c9_session.session_id c9_world1 = (some c9_session, c9_world1) ∧
    c9_session.chat_history = [] ∧ c9_session.quiz_history = [] ∧
    c9_session.user_id = "u" ∧ c9_session.progress = [] ∧
    c9_session.created_at ≤ c9_session.updated_at :=
  C9_amended_thm (fun n => n) (some "fresh") "u" c9_world c9_world1
    c9_session (fun _ _ h => h) rfl

/-! ## C2 -/

/-- Sequential execution of a batch of appends on one session.  On a cached
session the append path runs entirely under the cache lock with no
suspension point inside (the durable write is dispatched, not awaited), so
a concurrent execution of N appends on a cached session is exactly one of
these serialization orders. -/
def appendAll (c : Clock) (session_id : String) (msgs : List Message)
    (w : World) : World :=
  match msgs with
  | [] => w
  | m :: tl => appendAll c session_id tl (add_chat_message c session_id m w).2

theorem appendAll_cached (c : Clock) (id : String) (msgs : List Message)
    (w : World) (s : Session) (h : findVal w.cache id = some s) :
    ∃ s1, findVal (appendAll c id msgs w).cache id = some s1 ∧
      s1.chat_history = s.chat_history ++ msgs := by
  induction msgs generalizing w s with
  | nil => exact ⟨s, by simpa [appendAll] using h, by simp⟩
  | cons m tl ih =>
    obtain ⟨h1, h2⟩ := add_chat_message_cached c id m w s h
    obtain ⟨s1, hs1, hchat⟩ := ih (add_chat_message c id m w).2 _ h2
    exact ⟨s1, by simpa [appendAll] using hs1, by simp [hchat]⟩

/-- C2 corrected, positive part: on a session present in the cache, the N
appends are serialized by the cache lock, and every serialization order
(permutation) of the N messages leaves a cached chat_history of length
exactly N (starting from an empty history) in which every message occurs
exactly as often as in the batch, hence each distinct message exactly
once. -/
theorem C2_amended_thm (c : Clock) (id : String) (w : World) (s : Session)
    (ms perm : List Message) (hcache : findVal w.cache id = some s)
    (hempty : s.chat_history = []) (hperm : perm.Perm ms) :
    ∃ s1, findVal (appendAll c id perm w).cache id = some s1 ∧
      s1.chat_history.length = ms.length ∧
      ∀ m, s1.chat_history.count m = ms.count m := by
  obtain ⟨s1, hs1, hchat⟩ := appendAll_cached c id perm w s hcache
  rw [hempty] at hchat
  simp only [List.nil_append] at hchat
  refine ⟨s1, hs1, ?_, fun m => ?_⟩
  · rw [hchat, hperm.length_eq]
  · rw [hchat]
    exact hperm.count_eq m

/-- World with session 7 cached with an empty chat history. -/
def c2_world : World :=
  { cache := [("7", sampleSession "7" "u")]
    db := { rows := [], nextId := 8, fail := false }
    tick := 0 }

theorem C2_witness :
    ∃ s1, findVal (appendAll (fun n => n) "7" ["m2", "m1"] c2_world).cache "7" =
        some s1 ∧
      s1.chat_history.length = (["m1", "m2"] : List Message).length ∧
      ∀ m, s1.chat_history.count m = (["m1", "m2"] : List Message).count m :=
  C2_amended_thm (fun n => n) "7" c2_world (sampleSession "7" "u")
    ["m1", "m2"] ["m2", "m1"] rfl rfl (List.Perm.swap "m1" "m2" [])

/-- Program counter of one task running AppendChatMessage on a session that
is not known to be cached.  checkCache: about to take the cache lock and
test membership (session.py line 195, then line 70 inside get_session).
loading: suspended on the durable select inside get_session (line 74); the
select has been issued, and in the schedule modelled here it has already
executed against the store, its result held in the loaded field of the
task.  finished: the call returned.  The spec fixes the suspension points:
a cache-miss read suspends on the durable load, while the cached append
path holds the lock and does not suspend. -/
inductive TaskPhase where
  | checkCache
  | loading
  | finished
deriving Repr, DecidableEq

/-- One task of the two-task race: its phase, the message it appends, and
the result of its durable select once issued. -/
structure RaceTask where
  phase : TaskPhase
  message : Message
  loaded : Option DBRow
deriving Repr, DecidableEq

/-- Two concurrent AppendChatMessage calls on the same session id over one
shared world. -/
structure RaceState where
  world : World
  taskA : RaceTask
  taskB : RaceTask
deriving Repr, DecidableEq

def taskOf (st : RaceState) (who : Bool) : RaceTask :=
  if who then st.taskA else st.taskB

def withTask (st : RaceState) (who : Bool) (t : RaceTask) (w : World) :
    RaceState :=
  if who then { world := w, taskA := t, taskB := st.taskB }
  else { world := w, taskA := st.taskA, taskB := t }

/-- One scheduler step: run the chosen task from its current suspension
point to its next one (or to completion), performing on the shared world
exactly what add_chat_message does on that segment.  At checkCache, a
cache hit runs the whole locked cached-append branch, which is exactly
add_chat_message on a cached session; a miss falls into get_session, issues
the durable select and suspends.  At loading, the task resumes with its own
select result: get_session converts the row to a fresh session object of
its own and caches it (session.py lines 79 to 92), then add_chat_message
appends to that object and calls update_session (lines 213 to 216); an
absent row makes get_session return None and the call raises ValueError. -/
def raceStep (c : Clock) (session_id : String) (st : RaceState)
    (who : Bool) : RaceState :=
  let t := taskOf st who
  match t.phase with
  | TaskPhase.checkCache =>
    match findVal st.world.cache session_id with
    | some _ =>
      withTask st who { t with phase := TaskPhase.finished }
        (add_chat_message c session_id t.message st.world).2
    | none =>
      withTask st who
        { t with
            phase := TaskPhase.loading,
            loaded := if st.world.db.fail then none
                      else findVal st.world.db.rows session_id }
        st.world
  | TaskPhase.loading =>
    match t.loaded with
    | none =>
      withTask st who { t with phase := TaskPhase.finished } st.world
    | some row =>
      let s := rowToSession row
      let w1 := { st.world with
                    cache := dictSet st.world.cache session_id s }
      let chat1 := s.chat_history ++ [t.message]
      let w2 := (update_session c session_id
          { chat_history := some chat1 } w1).2
      withTask st who { t with phase := TaskPhase.finished } w2
  | TaskPhase.finished => st

def raceRun (c : Clock) (session_id : String) (st : RaceState)
    (sched : List Bool) : RaceState :=
  sched.foldl (raceStep c session_id) st

/-- The race scenario: session 9 exists in the durable store with an empty
chat history but is not in the cache. -/
def race_world : World :=
  { cache := []
    db := { rows := [("9", sampleRow "9" "u")], nextId := 10, fail := false }
    tick := 0 }

def race_init : RaceState :=
  { world := race_world
    taskA := { phase := TaskPhase.checkCache, message := "mA", loaded := none }
    taskB := { phase := TaskPhase.checkCache, message := "mB", loaded := none } }

/-- C2 counterexample: two concurrent AppendChatMessage calls on an existing
session that is not in the cache can lose a message.  Schedule: task A
misses the cache and suspends on its durable load, task B misses the cache
and suspends on its durable load, A resumes and completes, B resumes and
completes.  Both calls finish, yet the final cached chat history is just
mB: the append of mA was overwritten when B populated the cache from its
own stale load, so the length is 1, not 2. -/
theorem C2_counterexample :
    (raceRun (fun n => n) "9" race_init [true, false, true, false]).taskA.phase
        = TaskPhase.finished ∧
    (raceRun (fun n => n) "9" race_init [true, false, true, false]).taskB.phase
        = TaskPhase.finished ∧
    (findVal (raceRun (fun n => n) "9" race_init
          [true, false, true, false]).world.cache "9").map
        Session.chat_history = some ["mB"] := by
  exact ⟨rfl, rfl, rfl⟩

end MoneyMentor
